import Mathlib

/-!
# CloudFall simulation engine: verification of the specification claims

Shallow embedding of the CloudFall tick-based infrastructure simulation
(JavaScript source under `src/`): the request/service data model, the
per-service capacity and health logic, the AWS compute and WAF variants,
the service registry routing and aggregation, the game-state metrics
update, the traffic-volume formula and the tick orchestrator.

Modelling conventions:
* JS numbers are modelled as `ℚ` (no claim here depends on binary
  floating-point rounding).
* `Math.random()` is modelled as an explicit oracle: a stream `ℕ → ℚ`
  together with a cursor that advances once per draw, threaded through
  exactly the calls that draw in the source.
* `Math.round` (half rounds toward +∞ in JS) is `jsRound`.
* Transcendental library calls (`Math.exp`) are passed in as an oracle
  function, so every definition stays computable.
-/

namespace CloudFall

/-- Health states of a service (`baseService.js` line 14). -/
inductive Health where
  | healthy
  | degraded
  | failed
deriving DecidableEq, Repr

/-- JS `Math.round`: half-way values round toward positive infinity. -/
def jsRound (x : ℚ) : ℤ := ⌊x + 1 / 2⌋

/-- JS `String.prototype.startsWith`, modelled on the character list. -/
def strStartsWith (s pre : String) : Bool :=
  pre.toList.isPrefixOf s.toList

/-- JS `String.prototype.toLowerCase`, modelled on the character list. -/
def strToLower (s : String) : String :=
  (s.toList.map Char.toLower).asString

/-- JS `String.prototype.trim`, modelled on the character list. -/
def strTrim (s : String) : String :=
  (((s.toList.dropWhile Char.isWhitespace).reverse.dropWhile
    Char.isWhitespace).reverse).asString

/-- One unit of traffic (`src/traffic/request.js`), restricted to the fields
the processing pipeline reads or writes.  The randomly generated
identity/value/size fields and the timestamp are not read by any claim. -/
structure Request where
  type : String := "user"
  source : String := "organic"
  path : String := "/"
  latency : ℚ := 0
  provider : String := ""
  service : String := ""
  instanceType : String := ""
  queryType : String := ""
  engine : String := ""
  requiresCaptcha : Bool := false
  requiresChallenge : Bool := false
deriving DecidableEq, Repr

/-- The `Math.random()` oracle: an infinite stream of draws plus a cursor.
Each modelled call to `Math.random()` reads `stream idx` and advances the
cursor by one. -/
structure Rand where
  stream : ℕ → ℚ
  idx : ℕ

namespace BaseService

/-- `BaseService.updateHealth` (`baseService.js` lines 109-117): the health
assigned from the load ratio and the two thresholds. -/
def updateHealth (degradationThreshold failureThreshold loadRatio : ℚ) : Health :=
  if loadRatio > failureThreshold then .failed
  else if loadRatio > degradationThreshold then .degraded
  else .healthy

/-- `BaseService.calculateLatency` (`baseService.js` lines 82-86):
`round(base * (1 + (load * multiplier)^2))`. -/
def calculateLatency (latencyBase latencyMultiplier loadRatio : ℚ) : ℤ :=
  jsRound (latencyBase * (1 + (loadRatio * latencyMultiplier) ^ 2))

/-- `BaseService.shouldDropRequest` (`baseService.js` lines 91-104).
Returns the decision together with the number of `Math.random()` draws the
call consumed (`1` exactly when the over-capacity probabilistic branch is
taken, `0` otherwise); `draw` is the value the oracle would supply. -/
def shouldDropRequest (health : Health) (failureThreshold loadRatio draw : ℚ) :
    Bool × ℕ :=
  if health = .failed then (true, 0)
  else if loadRatio > failureThreshold then
    (decide (draw < (loadRatio - failureThreshold) / failureThreshold), 1)
  else (false, 0)

/-- `BaseService.validate` (`baseService.js` lines 214-234): collects every
violated rule, in source order, without stopping at the first. -/
def validate (name provider : String) (capacity baseCost : ℚ) : List String :=
  (if strTrim name = "" then ["Service name is required"] else []) ++
  (if ¬ (["aws", "gcp", "azure"].contains provider) then
    ["Invalid provider - must be aws, gcp, or azure"] else []) ++
  (if capacity ≤ 0 then ["Capacity must be greater than 0"] else []) ++
  (if baseCost < 0 then ["Base cost cannot be negative"] else [])

end BaseService

/-- CPU-credit state of a burstable EC2 instance (`compute.js` lines 25-31). -/
structure CpuCredits where
  current : ℚ
  maximum : ℚ
  earnRate : ℚ
  baseline : ℚ
deriving DecidableEq, Repr

/-- Auto Scaling configuration (`compute.js` lines 34-42). -/
structure AutoScalingConfig where
  enabled : Bool
  minInstances : ℕ
  maxInstances : ℕ
  desiredCapacity : ℕ
  scaleUpThreshold : ℚ
  scaleDownThreshold : ℚ
  cooldownPeriod : ℚ
deriving DecidableEq, Repr

/-- State of an `AWSCompute` (EC2) instance (`compute.js` lines 7-88),
restricted to the fields its processing, health, scaling and validation
logic reads.  The per-instance metrics/uptime bookkeeping
(`BaseService.updateMetrics`) and the cost model (`getCost`) are not read
by any claim and are not modelled. -/
structure AWSCompute where
  id : String := ""
  name : String := "AWS-EC2"
  provider : String := "aws"
  capacity : ℚ := 500
  baseCost : ℚ := 1 / 20
  instanceType : String := "t3.medium"
  tenancy : String := "default"
  isBurstable : Bool
  cpuCredits : CpuCredits
  autoScaling : AutoScalingConfig
  volumeSize : ℚ := 20
  spotInstance : Bool := false
  interruptionRisk : ℚ := 0
  reservedInstance : Bool := false
  enhancedNetworking : Bool := true
  placementGroupName : Option String := none
  placementStrategy : String := "cluster"
  latencyBase : ℚ := 5
  latencyMultiplier : ℚ := 6 / 5
  degradationThreshold : ℚ := 7 / 10
  failureThreshold : ℚ := 13 / 10
  instanceState : String := "running"
  currentLoad : ℚ := 0
  currentCpuUtilization : ℚ := 0
  lastScalingAction : ℚ := 0
  health : Health := .healthy
deriving Repr

namespace AWSCompute

/-- `AWSCompute.parseInstanceFamily` (`compute.js` lines 93-95): the prefix
before the first dot of the instance type. -/
def parseInstanceFamily (instanceType : String) : String :=
  (instanceType.toList.takeWhile (fun c => c ≠ '.')).asString

/-- The `AWSCompute` constructor (`compute.js` lines 8-88) applied to a
configuration that only sets `capacity`, `spotInstance` and
`reservedInstance`; all other fields take the constructor defaults
(`t3.medium` is burstable, auto scaling disabled, not spot, not reserved). -/
def mk' (capacity : ℚ) (spot reserved : Bool) : AWSCompute :=
  let family := parseInstanceFamily "t3.medium"
  let burst := strStartsWith family "t"
  { capacity := capacity
    isBurstable := burst
    cpuCredits :=
      { current := if burst then 30 else 0
        maximum := if burst then 144 else 0
        earnRate := if burst then 1 / 5 else 0
        baseline := if burst then 20 else 100 }
    autoScaling :=
      { enabled := false, minInstances := 1, maxInstances := 10
        desiredCapacity := 1, scaleUpThreshold := 70
        scaleDownThreshold := 30, cooldownPeriod := 300 }
    spotInstance := spot
    interruptionRisk := if spot then 1 / 20 else 0
    reservedInstance := reserved }

/-- A fresh default-configuration instance of the given capacity. -/
def default' (capacity : ℚ) : AWSCompute := mk' capacity false false

/-- `AWSCompute.updateCpuCredits` (`compute.js` lines 201-221). -/
def updateCpuCredits (s : AWSCompute) (loadRatio : ℚ) : AWSCompute :=
  if ¬ s.isBurstable then s
  else
    let cpuUtilization := loadRatio * 100
    if cpuUtilization ≤ s.cpuCredits.baseline then
      let earned := min s.cpuCredits.maximum (s.cpuCredits.current + s.cpuCredits.earnRate)
      { s with cpuCredits.current := earned }
    else
      let burstUtilization := cpuUtilization - s.cpuCredits.baseline
      let creditsConsumed := burstUtilization / 100 * 60
      { s with cpuCredits.current := max 0 (s.cpuCredits.current - creditsConsumed) }

/-- `AWSCompute.updateHealth` (`compute.js` lines 305-317): the base
threshold classification, then the burstable CPU-credit override, then the
spot interruption-risk override (each override forces `degraded`). -/
def updateHealth (s : AWSCompute) (loadRatio : ℚ) : AWSCompute :=
  let base := BaseService.updateHealth s.degradationThreshold s.failureThreshold loadRatio
  let s := { s with health := base }
  let s :=
    if s.isBurstable ∧ s.cpuCredits.current ≤ 0 ∧ loadRatio > 1 / 2 then
      { s with health := .degraded }
    else s
  if s.spotInstance ∧ s.interruptionRisk > 1 / 10 then
    { s with health := .degraded }
  else s

/-- `AWSCompute.scaleUp` (`compute.js` lines 273-284). -/
def scaleUp (s : AWSCompute) : AWSCompute :=
  let newCapacity := min s.autoScaling.maxInstances (s.autoScaling.desiredCapacity + 1)
  if s.autoScaling.desiredCapacity < newCapacity then
    { s with
      autoScaling.desiredCapacity := newCapacity
      capacity := s.capacity * ((newCapacity : ℚ) / ((newCapacity : ℚ) - 1)) }
  else s

/-- `AWSCompute.scaleDown` (`compute.js` lines 289-300). -/
def scaleDown (s : AWSCompute) : AWSCompute :=
  let newCapacity := max s.autoScaling.minInstances (s.autoScaling.desiredCapacity - 1)
  if newCapacity < s.autoScaling.desiredCapacity then
    { s with
      autoScaling.desiredCapacity := newCapacity
      capacity := s.capacity * ((newCapacity : ℚ) / ((newCapacity : ℚ) + 1)) }
  else s

/-- `AWSCompute.evaluateAutoScaling` (`compute.js` lines 241-268); `now` is
the `Date.now()` reading in seconds-compatible units. -/
def evaluateAutoScaling (s : AWSCompute) (now : ℚ) : AWSCompute :=
  if ¬ s.autoScaling.enabled then s
  else
    let timeSinceLastAction := (now - s.lastScalingAction) / 1000
    if timeSinceLastAction < s.autoScaling.cooldownPeriod then s
    else
      let currentCapacity := s.autoScaling.desiredCapacity
      if s.currentCpuUtilization > s.autoScaling.scaleUpThreshold ∧
          currentCapacity < s.autoScaling.maxInstances then
        { s.scaleUp with lastScalingAction := now }
      else if s.currentCpuUtilization < s.autoScaling.scaleDownThreshold ∧
          currentCapacity > s.autoScaling.minInstances then
        { s.scaleDown with lastScalingAction := now }
      else s

/-- `AWSCompute.calculateEC2Latency` (`compute.js` lines 158-196). -/
def calculateEC2Latency (s : AWSCompute) (loadRatio : ℚ) : ℤ :=
  let latency : ℚ := (BaseService.calculateLatency s.latencyBase s.latencyMultiplier loadRatio : ℤ)
  let latency :=
    if s.isBurstable then
      if s.cpuCredits.current ≤ 0 then
        let baselineRatio := s.cpuCredits.baseline / 100
        if loadRatio > baselineRatio then
          latency * (1 + (loadRatio - baselineRatio) * 3)
        else latency
      else if loadRatio > s.cpuCredits.baseline / 100 then
        latency * (8 / 10)
      else latency
    else latency
  let latency := if s.enhancedNetworking then latency * (9 / 10) else latency
  let latency :=
    if s.placementGroupName.isSome then
      if s.placementStrategy = "cluster" then latency * (85 / 100)
      else if s.placementStrategy = "partition" then latency * (95 / 100)
      else if s.placementStrategy = "spread" then latency * (105 / 100)
      else latency
    else latency
  jsRound latency

/-- Outcome of a service `processRequests` call: the three request lists the
variants return (`blocked` is `[]` for variants whose result object has no
`blocked` field). -/
structure ProcessResult where
  processed : List Request
  dropped : List Request
  blocked : List Request := []
deriving Repr

/-- The per-request loop of `AWSCompute.processRequests` (`compute.js`
lines 130-147): drop or process each request in order, threading the
`Math.random()` oracle through `shouldDropRequest` and accumulating the
total latency added this tick. -/
def processEach (s : AWSCompute) (loadRatio : ℚ) :
    List Request → Rand → List Request × List Request × ℚ × Rand
  | [], r => ([], [], 0, r)
  | request :: rest, r =>
    let decision := BaseService.shouldDropRequest s.health s.failureThreshold
      loadRatio (r.stream r.idx)
    let r := { r with idx := r.idx + decision.2 }
    if decision.1 then
      let tail := processEach s loadRatio rest r
      (tail.1, request :: tail.2.1, tail.2.2.1, tail.2.2.2)
    else
      let latency : ℚ := (s.calculateEC2Latency loadRatio : ℤ)
      let request := { request with
        latency := request.latency + latency
        provider := "aws", service := "ec2", instanceType := s.instanceType }
      let tail := processEach s loadRatio rest r
      (request :: tail.1, tail.2.1, tail.2.2.1 + latency, tail.2.2.2)

/-- `AWSCompute.processRequests` (`compute.js` lines 100-153): early return
on an empty batch, load/CPU bookkeeping, CPU-credit update, spot
interruption check (one oracle draw, only for spot instances), health
update, auto-scaling evaluation, then the per-request loop.  `now` is the
`Date.now()` reading used by auto scaling. -/
def processRequests (s : AWSCompute) (requests : List Request) (r : Rand)
    (now : ℚ) : AWSCompute × ProcessResult × Rand :=
  if requests.isEmpty then (s, { processed := [], dropped := [] }, r)
  else
    let loadRatio := (requests.length : ℚ) / s.capacity
    let s := { s with
      currentLoad := loadRatio
      currentCpuUtilization := min 100 (loadRatio * 100) }
    let s := s.updateCpuCredits loadRatio
    if s.spotInstance then
      let draw := r.stream r.idx
      let r := { r with idx := r.idx + 1 }
      if draw < s.interruptionRisk / 60 then
        (s, { processed := [], dropped := requests }, r)
      else
        let s := s.updateHealth loadRatio
        let s := s.evaluateAutoScaling now
        let out := processEach s loadRatio requests r
        (s, { processed := out.1, dropped := out.2.1 }, out.2.2.2)
    else
      let s := s.updateHealth loadRatio
      let s := s.evaluateAutoScaling now
      let out := processEach s loadRatio requests r
      (s, { processed := out.1, dropped := out.2.1 }, out.2.2.2)

/-- `AWSCompute.validate` (`compute.js` lines 404-433): the base violations
followed by the EC2-specific ones, all accumulated. -/
def validate (s : AWSCompute) : List String :=
  BaseService.validate s.name s.provider s.capacity s.baseCost ++
  (if ¬ (["t3.nano", "t3.micro", "t3.small", "t3.medium", "t3.large", "t3.xlarge",
          "m5.large", "m5.xlarge", "c5.large", "c5.xlarge"].contains s.instanceType) then
    ["Invalid instance type: " ++ s.instanceType] else []) ++
  (if ¬ (["default", "dedicated", "host"].contains s.tenancy) then
    ["Invalid tenancy - must be default, dedicated, or host"] else []) ++
  (if s.autoScaling.maxInstances < s.autoScaling.minInstances then
    ["Auto scaling min instances cannot exceed max instances"] else []) ++
  (if s.volumeSize < 1 ∨ 16384 < s.volumeSize then
    ["EBS volume size must be between 1 and 16384 GB"] else []) ++
  (if s.spotInstance ∧ s.reservedInstance then
    ["Instance cannot be both spot and reserved"] else [])

end AWSCompute

/-- WAF rule actions (`compute.js` WAF part); `CONTINUE` is the pseudo-action
`evaluateRule` reports for a rule that did not match. -/
inductive WafAction where
  | ALLOW
  | BLOCK
  | COUNT
  | CAPTCHA
  | CHALLENGE
  | CONTINUE
deriving DecidableEq, Repr

/-- A WAF rule as stored in the rule maps (`compute.js` WAF part,
`addManagedRuleGroup` / `addCustomRule` / rate-based rules): the fields the
inspection loop reads. -/
structure WafRule where
  id : String
  name : String
  ruleType : String := "MANAGED"
  priority : ℚ
  action : WafAction
deriving DecidableEq, Repr

/-- An entry of the `matchedRules` list built by `inspectRequest`. -/
structure MatchedRule where
  ruleId : String
  ruleName : String
  action : WafAction
deriving DecidableEq, Repr

/-- The value `inspectRequest` returns (`compute.js` WAF part lines 662-666). -/
structure InspectResult where
  action : WafAction
  matchedRules : List MatchedRule
  terminatingRule : Option String
deriving DecidableEq, Repr

/-- State of an `AWSWAF` instance (`compute.js` WAF part, constructor),
restricted to the fields its processing and inspection logic reads.  The
`wafMetrics` counters, cost model and logging metadata are bookkeeping no
claim reads and are not modelled. -/
structure AWSWAF where
  name : String := "AWS-WAF"
  provider : String := "aws"
  capacity : ℚ := 25000
  baseCost : ℚ := 3 / 5
  scope : String := "CLOUDFRONT"
  defaultAction : WafAction := .ALLOW
  managedRuleGroups : List WafRule := []
  customRules : List WafRule := []
  rateBasedRules : List WafRule := []
  inspectBody : Bool := true
  loggingEnabled : Bool := false
  latencyBase : ℚ := 2
  latencyMultiplier : ℚ := 2 / 5
  degradationThreshold : ℚ := 19 / 20
  failureThreshold : ℚ := 5 / 2
  currentLoad : ℚ := 0
  health : Health := .healthy
deriving Repr

namespace AWSWAF

/-- `AWSWAF.initializeManagedRules` + `addManagedRuleGroup` (`compute.js`
WAF part): the enabled managed rule group names become rules
`managed-1, managed-2, …` with priorities `1, 2, …` and action `BLOCK`. -/
def initializeManagedRules (names : List String) : List WafRule :=
  (names.enum).map fun p =>
    { id := "managed-" ++ toString (p.1 + 1)
      name := p.2
      ruleType := "MANAGED"
      priority := (p.1 + 1 : ℕ)
      action := .BLOCK }

/-- The `AWSWAF` constructor (`compute.js` WAF part) applied to a
configuration that sets only `defaultAction` and `enabledManagedRules`. -/
def mk' (defaultAction : WafAction) (enabledManagedRules : List String) : AWSWAF :=
  { defaultAction := defaultAction
    managedRuleGroups := initializeManagedRules enabledManagedRules }

/-- The terminating-action test of the inspection loop (`compute.js` WAF
part line 651). -/
def isTerminatingAction (a : WafAction) : Bool :=
  [WafAction.BLOCK, .ALLOW, .CAPTCHA, .CHALLENGE].contains a

/-- `AWSWAF.getSortedRules` (`compute.js` WAF part lines 940-948): the three
rule collections concatenated, then stably sorted by ascending priority
(the JS array sort is stable, so it agrees with insertion sort). -/
def getSortedRules (s : AWSWAF) : List WafRule :=
  List.insertionSort (fun a b => a.priority ≤ b.priority)
    (s.managedRuleGroups ++ s.customRules ++ s.rateBasedRules)

instance : IsTotal WafRule (fun a b => a.priority ≤ b.priority) :=
  ⟨fun a b => le_total a.priority b.priority⟩

instance : IsTrans WafRule (fun a b => a.priority ≤ b.priority) :=
  ⟨fun _ _ _ h1 h2 => le_trans h1 h2⟩

/-- The rule loop of `AWSWAF.inspectRequest` (`compute.js` WAF part lines
636-660) over an explicit rule list.  `isMatch` abstracts the boolean the
rule dispatcher `evaluateRule` computes for the inspected request; when a
rule isMatch, `evaluateRule` reports exactly the rule's configured action.
The `wafMetrics.ruleMatches` statistics update is bookkeeping no claim
reads and is not modelled.  A matching rule with a terminating action ends
the loop; any other matching rule (in particular `COUNT`) is recorded and
the loop continues. -/
def inspectRules (isMatch : WafRule → Bool) (defaultAction : WafAction) :
    List WafRule → InspectResult
  | [] => { action := defaultAction, matchedRules := [], terminatingRule := none }
  | rule :: rest =>
    if isMatch rule then
      let entry : MatchedRule :=
        { ruleId := rule.id, ruleName := rule.name, action := rule.action }
      if isTerminatingAction rule.action then
        { action := rule.action, matchedRules := [entry], terminatingRule := some rule.id }
      else
        let res := inspectRules isMatch defaultAction rest
        { res with matchedRules := entry :: res.matchedRules }
    else inspectRules isMatch defaultAction rest

/-- `AWSWAF.inspectRequest` (`compute.js` WAF part lines 627-667): the rule
loop over the priority-sorted rule list, defaulting to the configured
default action. -/
def inspectRequest (s : AWSWAF) (isMatch : WafRule → Bool) : InspectResult :=
  inspectRules isMatch s.defaultAction s.getSortedRules

/-- `AWSWAF.calculateWAFLatency` (`compute.js` WAF part lines 953-980). -/
def calculateWAFLatency (s : AWSWAF) (loadRatio : ℚ) (res : InspectResult) : ℤ :=
  let latency : ℚ := (BaseService.calculateLatency s.latencyBase s.latencyMultiplier loadRatio : ℤ)
  let rulesEvaluated : ℚ := (res.matchedRules.length : ℕ) + 1
  let latency := latency + rulesEvaluated * (1 / 10)
  let hasComplexRules := res.matchedRules.any fun rule =>
    ("Bot".toList <:+: rule.ruleName.toList) ∨ ("Fraud".toList <:+: rule.ruleName.toList)
  let latency := if hasComplexRules then latency * (3 / 2) else latency
  let latency := if s.inspectBody then latency + 1 else latency
  let latency := if s.loggingEnabled then latency * (102 / 100) else latency
  jsRound latency

/-- The per-request loop of `AWSWAF.processRequests` (`compute.js` WAF part
lines 568-613): capacity-based drop first (threading the random oracle),
then rule inspection, latency, request tagging and the dispatch of the
final WAF action into the processed / blocked lists.  `isMatch req` is the
match oracle `evaluateRule` computes for request `req`. -/
def processEach (s : AWSWAF) (isMatch : Request → WafRule → Bool) (loadRatio : ℚ) :
    List Request → Rand → AWSCompute.ProcessResult × ℚ × Rand
  | [], r => ({ processed := [], dropped := [], blocked := [] }, 0, r)
  | request :: rest, r =>
    let decision := BaseService.shouldDropRequest s.health s.failureThreshold
      loadRatio (r.stream r.idx)
    let r := { r with idx := r.idx + decision.2 }
    if decision.1 then
      let tail := processEach s isMatch loadRatio rest r
      ({ tail.1 with dropped := request :: tail.1.dropped }, tail.2)
    else
      let res := s.inspectRequest (isMatch request)
      let latency : ℚ := (s.calculateWAFLatency loadRatio res : ℤ)
      let request := { request with
        latency := request.latency + latency
        provider := "aws", service := "waf" }
      let tail := processEach s isMatch loadRatio rest r
      let tailRes := tail.1
      -- the final-action switch (`compute.js` WAF part lines 589-612); an
      -- action outside the five cases would fall through and route the
      -- request nowhere, exactly as the JS switch does
      let out :=
        match res.action with
        | .ALLOW => { tailRes with processed := request :: tailRes.processed }
        | .BLOCK => { tailRes with blocked := request :: tailRes.blocked }
        | .COUNT => { tailRes with processed := request :: tailRes.processed }
        | .CAPTCHA =>
          let request := { request with requiresCaptcha := true }
          { tailRes with processed := request :: tailRes.processed }
        | .CHALLENGE =>
          let request := { request with requiresChallenge := true }
          { tailRes with processed := request :: tailRes.processed }
        | .CONTINUE => tailRes
      (out, tail.2.1 + latency, tail.2.2)

/-- `AWSWAF.processRequests` (`compute.js` WAF part lines 550-622): early
return on an empty batch, load and health update, then the per-request
inspection loop.  The result object carries all three lists `processed`,
`dropped` and `blocked`. -/
def processRequests (s : AWSWAF) (isMatch : Request → WafRule → Bool)
    (requests : List Request) (r : Rand) : AWSWAF × AWSCompute.ProcessResult × Rand :=
  if requests.isEmpty then
    (s, { processed := [], dropped := [], blocked := [] }, r)
  else
    let loadRatio := (requests.length : ℚ) / s.capacity
    let base := BaseService.updateHealth s.degradationThreshold s.failureThreshold loadRatio
    let s := { s with currentLoad := loadRatio, health := base }
    let out := processEach s isMatch loadRatio requests r
    (s, out.1, out.2.2)

end AWSWAF

/-- The record `simulateDatabaseOperation` returns (`database.js` lines
217-221). -/
structure DbOpResult where
  queryType : String
  isSlowQuery : Bool
  affectedRows : ℤ
deriving DecidableEq, Repr

/-- State of an `AWSDatabase` (RDS) instance (`database.js` lines 7-106),
restricted to the fields its processing logic reads.  The `dbMetrics` and
`queryStats` counters, backup/maintenance metadata, cost model and
validation extras are bookkeeping no claim reads and are not modelled.
Note that alongside the inherited `capacity` the constructor derives
`maxConnections` from the instance class, and the load ratio is computed
from `maxConnections`, not from `capacity`. -/
structure AWSDatabase where
  id : String := ""
  name : String := "AWS-RDS"
  provider : String := "aws"
  capacity : ℚ := 1000
  baseCost : ℚ := 17 / 1000
  engine : String := "mysql"
  instanceClass : String := "db.t3.micro"
  storageType : String := "gp2"
  multiAZ : Bool := false
  readReplicasCount : ℕ := 0
  performanceInsights : Bool := false
  maxConnections : ℚ := 85
  latencyBase : ℚ := 3
  latencyMultiplier : ℚ := 3 / 2
  degradationThreshold : ℚ := 4 / 5
  failureThreshold : ℚ := 6 / 5
  currentLoad : ℚ := 0
  health : Health := .healthy
deriving Repr

namespace AWSDatabase

/-- `AWSDatabase.calculateMaxConnections` (`database.js` lines 111-124). -/
def calculateMaxConnections (instanceClass : String) : ℚ :=
  if instanceClass = "db.t3.micro" then 85
  else if instanceClass = "db.t3.small" then 85
  else if instanceClass = "db.t3.medium" then 150
  else if instanceClass = "db.t3.large" then 300
  else if instanceClass = "db.m5.large" then 648
  else if instanceClass = "db.m5.xlarge" then 1320
  else if instanceClass = "db.r5.large" then 648
  else if instanceClass = "db.r5.xlarge" then 1320
  else 100

/-- The `AWSDatabase` constructor (`database.js` lines 8-106) applied to a
configuration that only sets `instanceClass`; `maxConnections` is derived
from the instance class as in the constructor (line 54). -/
def mk' (instanceClass : String) : AWSDatabase :=
  { instanceClass := instanceClass
    maxConnections := calculateMaxConnections instanceClass }

/-- A fresh all-default RDS instance (`db.t3.micro`, capacity 1000,
maxConnections 85). -/
def default' : AWSDatabase := mk' "db.t3.micro"

/-- `AWSDatabase.simulateDatabaseOperation` (`database.js` lines 183-222):
the query type is the request field when set, otherwise one oracle draw
picks it (`queryTypes[floor(random*4)]`, with a default for a draw outside
`[0,1)` that JS cannot produce); the transaction draw only updates the
`queryStats` counters (bookkeeping not modelled) but still advances the
oracle; then the slow-query and affected-rows draws. -/
def simulateDatabaseOperation (request : Request) (r : Rand) : DbOpResult × Rand :=
  let pick :=
    if request.queryType ≠ "" then (request.queryType, r)
    else
      let d := r.stream r.idx
      (["SELECT", "INSERT", "UPDATE", "DELETE"].getD (Int.toNat ⌊d * 4⌋) "SELECT",
        { r with idx := r.idx + 1 })
  let queryType := pick.1
  let r := pick.2
  let r := { r with idx := r.idx + 1 }
  let isSlowQuery := decide (r.stream r.idx < 1 / 20)
  let r := { r with idx := r.idx + 1 }
  let affectedRows := ⌊r.stream r.idx * 100⌋ + 1
  let r := { r with idx := r.idx + 1 }
  ({ queryType := queryType, isSlowQuery := isSlowQuery, affectedRows := affectedRows }, r)

/-- `AWSDatabase.calculateDatabaseLatency` (`database.js` lines 227-281). -/
def calculateDatabaseLatency (s : AWSDatabase) (loadRatio : ℚ) (dbResult : DbOpResult) : ℤ :=
  let latency : ℚ := (BaseService.calculateLatency s.latencyBase s.latencyMultiplier loadRatio : ℤ)
  let q := strToLower dbResult.queryType
  let latency :=
    if q = "select" then latency * (8 / 10)
    else if q = "insert" then latency * (12 / 10)
    else if q = "update" then latency * (15 / 10)
    else if q = "delete" then latency * (13 / 10)
    else latency
  let latency := if dbResult.isSlowQuery then latency * 10 else latency
  let latency :=
    if s.multiAZ ∧ (["INSERT", "UPDATE", "DELETE"].contains dbResult.queryType) then
      latency + 2
    else latency
  let latency :=
    if 0 < s.readReplicasCount ∧ dbResult.queryType = "SELECT" then latency * (7 / 10)
    else latency
  let latency :=
    if s.storageType = "gp2" then latency * 1
    else if s.storageType = "gp3" then latency * (9 / 10)
    else if s.storageType = "io1" ∨ s.storageType = "io2" then latency * (7 / 10)
    else latency
  let latency := if s.performanceInsights then latency * (102 / 100) else latency
  jsRound latency

/-- The per-request loop of `AWSDatabase.processRequests` (`database.js`
lines 150-174): capacity-based drop first (the `queuedConnections` counter
it bumps is bookkeeping not modelled), then the simulated operation,
latency and request tagging. -/
def processEach (s : AWSDatabase) (loadRatio : ℚ) :
    List Request → Rand → List Request × List Request × ℚ × Rand
  | [], r => ([], [], 0, r)
  | request :: rest, r =>
    let decision := BaseService.shouldDropRequest s.health s.failureThreshold
      loadRatio (r.stream r.idx)
    let r := { r with idx := r.idx + decision.2 }
    if decision.1 then
      let tail := processEach s loadRatio rest r
      (tail.1, request :: tail.2.1, tail.2.2.1, tail.2.2.2)
    else
      let op := simulateDatabaseOperation request r
      let dbResult := op.1
      let r := op.2
      let latency : ℚ := (s.calculateDatabaseLatency loadRatio dbResult : ℤ)
      let request := { request with
        latency := request.latency + latency
        provider := "aws", service := "rds", engine := s.engine
        queryType := dbResult.queryType }
      let tail := processEach s loadRatio rest r
      (request :: tail.1, tail.2.1, tail.2.2.1 + latency, tail.2.2.2)

/-- `AWSDatabase.processRequests` (`database.js` lines 129-181): early
return on an empty batch; the load ratio is `requests.length /
maxConnections` (line 138) — based on connections, not on the declared
`capacity` — then the inherited threshold health update, the Multi-AZ
failover check (one oracle draw, only for Multi-AZ instances; the
deferred availability-zone swap runs outside the tick), and the
per-request loop. -/
def processRequests (s : AWSDatabase) (requests : List Request) (r : Rand) :
    AWSDatabase × AWSCompute.ProcessResult × Rand :=
  if requests.isEmpty then (s, { processed := [], dropped := [] }, r)
  else
    let loadRatio := (requests.length : ℚ) / s.maxConnections
    let base := BaseService.updateHealth s.degradationThreshold s.failureThreshold loadRatio
    let s := { s with currentLoad := loadRatio, health := base }
    if s.multiAZ then
      let draw := r.stream r.idx
      let r := { r with idx := r.idx + 1 }
      if draw < 1 / 10000 then
        (s, { processed := [], dropped := requests }, r)
      else
        let out := processEach s loadRatio requests r
        (s, { processed := out.1, dropped := out.2.1 }, out.2.2.2)
    else
      let out := processEach s loadRatio requests r
      (s, { processed := out.1, dropped := out.2.1 }, out.2.2.2)

end AWSDatabase

/-- The game metrics record (`gameState.js` lines 18-29), with its initial
values as field defaults. -/
structure Metrics where
  availability : ℚ := 100
  averageLatency : ℚ := 0
  totalCost : ℚ := 0
  reputation : ℚ := 100
  requestsProcessed : ℕ := 0
  requestsDropped : ℕ := 0
  requestsBlocked : ℕ := 0
  slaThreshold : ℚ := 90
  gameOver : Bool := false
  gameOverReason : Option String := none
deriving DecidableEq, Repr

/-- The per-tick aggregate the registry hands to
`GameState.updateMetrics` (`serviceRegistry.js` lines 99-104). -/
structure TickResults where
  processed : ℕ
  dropped : ℕ
  blocked : ℕ
  totalLatency : ℚ
deriving DecidableEq, Repr

namespace GameState

/-- `GameState.checkGameOverConditions` (`gameState.js` lines 129-139). -/
def checkGameOverConditions (m : Metrics) : Metrics :=
  if m.reputation ≤ 0 then
    { m with gameOver := true, gameOverReason := some "Reputation reached zero" }
  else if m.availability < m.slaThreshold then
    { m with gameOver := true
             gameOverReason := some "Availability below SLA threshold" }
  else m

/-- `GameState.updateMetrics` (`gameState.js` lines 85-124): cumulative
counters, availability (only when `processed + dropped > 0`), average
latency (only when `processed > 0`), the clamped reputation update, the
total-cost recomputation (the per-service `getCost()` readings are passed
in as `serviceCosts`), then the game-over check. -/
def updateMetrics (m : Metrics) (t : TickResults) (serviceCosts : List ℚ) : Metrics :=
  let m := { m with
    requestsProcessed := m.requestsProcessed + t.processed
    requestsDropped := m.requestsDropped + t.dropped
    requestsBlocked := m.requestsBlocked + t.blocked }
  let totalRequests := t.processed + t.dropped
  let m :=
    if 0 < totalRequests then
      { m with availability := ((t.processed : ℚ) / (totalRequests : ℚ)) * 100 }
    else m
  let m :=
    if 0 < t.processed then
      { m with averageLatency := t.totalLatency / (t.processed : ℚ) }
    else m
  let newReputation :=
    max 0 (min 100 (m.reputation - (t.dropped : ℚ) * (1 / 2) + (t.blocked : ℚ) * (1 / 10)))
  let m := { m with reputation := newReputation }
  let m := { m with totalCost := serviceCosts.sum }
  checkGameOverConditions m

end GameState

/-- A deployed service instance as the registry invokes it: the polymorphic
`service.processRequests(serviceRequests)` boundary (`serviceRegistry.js`
line 86), threading the random oracle.  The concrete variants
(`AWSCompute.processRequests`, `AWSWAF.processRequests`) instantiate it
with their state fixed. -/
def ServiceFn : Type := List Request → Rand → AWSCompute.ProcessResult × Rand

/-- The per-tick aggregate `ServiceRegistry.processRequests` returns
(`serviceRegistry.js` line 106). -/
structure RegistryResult where
  processed : ℕ
  dropped : ℕ
  blocked : ℕ
  totalLatency : ℚ
deriving DecidableEq, Repr

/-- The per-provider service-id buckets of the game state
(`gameState.js` lines 11-15); the rolling cost totals are recomputed in
`updateMetrics` and carried in `Metrics.totalCost` here. -/
structure Providers where
  aws : List String := []
  gcp : List String := []
  azure : List String := []
deriving DecidableEq, Repr

namespace ServiceRegistry

/-- `ServiceRegistry.routeRequests` (`serviceRegistry.js` lines 113-136):
with zero services the routing map is empty; otherwise request `i` goes to
service `i % n` (uniform round-robin) and the map lists, in first-use
order (ascending service index), each service that received at least one
request together with its batch. -/
def routeRequests (numServices : ℕ) (requests : List Request) :
    List (ℕ × List Request) :=
  if numServices = 0 then []
  else
    (List.range numServices).filterMap fun k =>
      let assigned := ((requests.enum).filter fun p => p.1 % numServices = k).map Prod.snd
      if assigned.isEmpty then none else some (k, assigned)

/-- `ServiceRegistry.processRequests` (`serviceRegistry.js` lines 69-107):
early return on an empty batch (without touching the metrics), otherwise
route, process each routed batch through its service, accumulate
`processed`/`dropped` counts and the latency of processed requests —
`totalBlocked` is initialized to `0` at line 76 and never incremented, so
the `blocked` results of the services are not accumulated — then hand the
aggregate to `GameState.updateMetrics`. -/
def processRequests (services : List ServiceFn) (requests : List Request)
    (m : Metrics) (serviceCosts : List ℚ) (r : Rand) :
    RegistryResult × Metrics × Rand :=
  if requests.isEmpty then
    ({ processed := 0, dropped := 0, blocked := 0, totalLatency := 0 }, m, r)
  else
    let routed := routeRequests services.length requests
    let step := routed.foldl
      (fun (acc : RegistryResult × Rand) entry =>
        match services.get? entry.1 with
        | some svc =>
          let out := svc entry.2 acc.2
          let res := out.1
          ({ acc.1 with
             processed := acc.1.processed + res.processed.length
             dropped := acc.1.dropped + res.dropped.length
             totalLatency := acc.1.totalLatency + (res.processed.map Request.latency).sum },
           out.2)
        | none => acc)
      ({ processed := 0, dropped := 0, blocked := 0, totalLatency := 0 }, r)
    let result := step.1
    let m' := GameState.updateMetrics m
      { processed := result.processed, dropped := result.dropped
        blocked := result.blocked, totalLatency := result.totalLatency }
      serviceCosts
    (result, m', step.2)

/-- `GameState.addService` (`gameState.js` lines 46-49): the id is appended
to its provider bucket.  An unknown provider would be a JS runtime fault;
it is unreachable because deployment validates the provider first. -/
def addServiceId (p : Providers) (provider id : String) : Providers :=
  if provider = "aws" then { p with aws := p.aws ++ [id] }
  else if provider = "gcp" then { p with gcp := p.gcp ++ [id] }
  else if provider = "azure" then { p with azure := p.azure ++ [id] }
  else p

/-- `ServiceRegistry.deployService` (`serviceRegistry.js` lines 36-50) for
an `AWSCompute` instance: validate; on any violation return `false`
leaving the registry contents and the game-state buckets untouched;
otherwise admit the instance to both. -/
def deployService (svc : AWSCompute) (registry : List AWSCompute)
    (buckets : Providers) : Bool × List AWSCompute × Providers :=
  let errors := svc.validate
  if 0 < errors.length then (false, registry, buckets)
  else (true, registry ++ [svc], addServiceId buckets svc.provider svc.id)

end ServiceRegistry

namespace TrafficGenerator

/-- `TrafficGenerator.getGaussianMultiplier` (`generator.js` lines 98-100);
`exp` is the `Math.exp` oracle. -/
def getGaussianMultiplier (exp : ℚ → ℚ) (x center width : ℚ) : ℚ :=
  exp (-(x - center) ^ 2 / (2 * width ^ 2))

/-- `TrafficGenerator.getTimePattern` (`generator.js` lines 82-93). -/
def getTimePattern (exp : ℚ → ℚ) (tick : ℕ) : ℚ :=
  let hourOfDay : ℚ := ((tick % 240 : ℕ) : ℚ) / 10
  let morningPeak := getGaussianMultiplier exp hourOfDay 10 1
  let afternoonPeak := getGaussianMultiplier exp hourOfDay 15 1
  let eveningPeak := getGaussianMultiplier exp hourOfDay 20 1
  3 / 10 + (morningPeak + afternoonPeak + eveningPeak) * (7 / 10)

/-- `TrafficGenerator.calculateTrafficVolume` (`generator.js` lines 66-77):
`round(base × (1+growth)^tick × timePattern × multiplier)`, then clamped
from below by the `Math.max(1, volume)` floor. -/
def calculateTrafficVolume (exp : ℚ → ℚ)
    (baseTrafficRate trafficGrowthRate currentTrafficMultiplier : ℚ)
    (tick : ℕ) : ℤ :=
  let growthMultiplier := (1 + trafficGrowthRate) ^ tick
  let timePattern := getTimePattern exp tick
  let volume := jsRound
    (baseTrafficRate * growthMultiplier * timePattern * currentTrafficMultiplier)
  max 1 volume

end TrafficGenerator

/-- The orchestrator-owned state `GameLoop.executeTick` can reach
(`main.js` GameLoop part): the game state's metrics, tick counter and
current request batch, the clock flag, and the subsystem states (the
registry's deployed services; the generator's spike/attack state). -/
structure GameLoopState where
  tick : ℕ := 0
  isRunning : Bool := false
  clockRunning : Bool := false
  metrics : Metrics := {}
  currentRequests : List Request := []
  services : List ServiceFn := []
  currentTrafficMultiplier : ℚ := 1
  attackInProgress : Bool := false
  attackDuration : ℤ := 0

namespace GameLoop

/-- `GameLoop.pause` (`main.js` GameLoop part lines 221-225): clears the
running flag and stops the clock; nothing else is touched. -/
def pause (s : GameLoopState) : GameLoopState :=
  { s with isRunning := false, clockRunning := false }

/-- `GameLoop.executeTick` (`main.js` GameLoop part lines 161-202).  The
event-bus emissions dispatch synchronously to the registered core
handlers: `TRAFFIC_GENERATED` runs `TrafficGenerator.generateTraffic` and
`REQUESTS_PROCESSED` runs `ServiceRegistry.processRequests` (which itself
calls `GameState.updateMetrics`); these handlers are the `generate` and
`process` parameters.  `TICK_START`, `METRICS_UPDATED` and `UI_UPDATE`
have no core-state handler (external logging/rendering only).  A final
`GAME_OVER` emission runs the `pause` handler.  When the game-over flag is
already set the tick pauses the loop and returns before touching the tick
counter or any subsystem. -/
def executeTick (generate : ℕ → GameLoopState → GameLoopState)
    (process : GameLoopState → GameLoopState)
    (tickNumber : ℕ) (s : GameLoopState) : GameLoopState :=
  if s.metrics.gameOver then pause s
  else
    let s := { s with tick := tickNumber }
    let s := generate tickNumber s
    let s := process s
    if s.metrics.gameOver then pause s else s

end GameLoop

/-! ## Helper lemmas -/

theorem checkGameOver_reputation (m : Metrics) :
    (GameState.checkGameOverConditions m).reputation = m.reputation := by
  unfold GameState.checkGameOverConditions
  split_ifs <;> rfl

theorem checkGameOver_availability (m : Metrics) :
    (GameState.checkGameOverConditions m).availability = m.availability := by
  unfold GameState.checkGameOverConditions
  split_ifs <;> rfl

theorem checkGameOver_averageLatency (m : Metrics) :
    (GameState.checkGameOverConditions m).averageLatency = m.averageLatency := by
  unfold GameState.checkGameOverConditions
  split_ifs <;> rfl

theorem updateMetrics_reputation (m : Metrics) (t : TickResults)
    (serviceCosts : List ℚ) :
    (GameState.updateMetrics m t serviceCosts).reputation =
      max 0 (min 100 (m.reputation - (t.dropped : ℚ) * (1 / 2) + (t.blocked : ℚ) * (1 / 10))) := by
  unfold GameState.updateMetrics
  rw [checkGameOver_reputation]
  split_ifs <;> rfl

theorem updateMetrics_availability_of_none (m : Metrics) (t : TickResults)
    (serviceCosts : List ℚ) (h : t.processed + t.dropped = 0) :
    (GameState.updateMetrics m t serviceCosts).availability = m.availability := by
  unfold GameState.updateMetrics
  rw [checkGameOver_availability]
  split_ifs with h1 h2 <;> first | rfl | omega

theorem updateMetrics_averageLatency_of_none (m : Metrics) (t : TickResults)
    (serviceCosts : List ℚ) (h : t.processed = 0) :
    (GameState.updateMetrics m t serviceCosts).averageLatency = m.averageLatency := by
  unfold GameState.updateMetrics
  rw [checkGameOver_averageLatency]
  split_ifs with h1 h2 <;> first | rfl | omega

theorem healthy_ne_failed : Health.healthy ≠ Health.failed :=
  fun h => Health.noConfusion h

theorem foldl_blocked_invariant (services : List ServiceFn) :
    ∀ (routed : List (ℕ × List Request)) (acc : RegistryResult × Rand),
      (List.foldl
        (fun (acc : RegistryResult × Rand) entry =>
          match services.get? entry.1 with
          | some svc =>
            let out := svc entry.2 acc.2
            let res := out.1
            ({ acc.1 with
               processed := acc.1.processed + res.processed.length
               dropped := acc.1.dropped + res.dropped.length
               totalLatency := acc.1.totalLatency + (res.processed.map Request.latency).sum },
             out.2)
          | none => acc)
        acc routed).1.blocked = acc.1.blocked := by
  intro routed
  induction routed with
  | nil => intro acc; rfl
  | cons e tl ih =>
    intro acc
    rw [List.foldl_cons, ih]
    cases h : services.get? e.1 <;> simp [h]

/-- The registry-level accumulator for blocked requests never moves off its
initial value 0, whatever the deployed services return (`serviceRegistry.js`
lines 69-107: `totalBlocked` is declared at line 76 and never added to). -/
theorem registry_never_counts_blocked (services : List ServiceFn)
    (requests : List Request) (m : Metrics) (serviceCosts : List ℚ) (r : Rand) :
    (ServiceRegistry.processRequests services requests m serviceCosts r).1.blocked = 0 := by
  unfold ServiceRegistry.processRequests
  split
  · rfl
  · exact foldl_blocked_invariant services
      (ServiceRegistry.routeRequests services.length requests)
      ({ processed := 0, dropped := 0, blocked := 0, totalLatency := 0 }, r)

/-! ## Claims -/

/-- C10: for every tick index and every setting of the traffic parameters
(base rate, growth rate, spike multiplier) — and every behaviour of the
`Math.exp` oracle inside the time pattern — the computed traffic volume is
at least 1: the `Math.max(1, volume)` floor applies even when the raw
formula `base × growth × timePattern × multiplier` rounds to 0. -/
theorem trafficVolume_at_least_one (exp : ℚ → ℚ)
    (baseTrafficRate trafficGrowthRate currentTrafficMultiplier : ℚ) (tick : ℕ) :
    1 ≤ TrafficGenerator.calculateTrafficVolume exp baseTrafficRate
      trafficGrowthRate currentTrafficMultiplier tick := by
  unfold TrafficGenerator.calculateTrafficVolume
  exact le_max_left _ _

/-- C6: every tick update sets
`reputation = clamp(old − dropped×0.5 + blocked×0.1, 0, 100)`, hence the
new reputation always lies in `[0, 100]` whatever the per-tick drop/block
counts; concretely, from reputation 100, 20 drops and 10 blocks give 91. -/
theorem reputation_update_clamped (m : Metrics) (t : TickResults)
    (serviceCosts : List ℚ) :
    (GameState.updateMetrics m t serviceCosts).reputation =
      max 0 (min 100 (m.reputation - (t.dropped : ℚ) * (1 / 2) + (t.blocked : ℚ) * (1 / 10))) ∧
    0 ≤ (GameState.updateMetrics m t serviceCosts).reputation ∧
    (GameState.updateMetrics m t serviceCosts).reputation ≤ 100 ∧
    (GameState.updateMetrics {}
      { processed := 0, dropped := 20, blocked := 10, totalLatency := 0 } []).reputation = 91 := by
  refine ⟨updateMetrics_reputation m t serviceCosts, ?_, ?_, ?_⟩
  · rw [updateMetrics_reputation]
    exact le_max_left _ _
  · rw [updateMetrics_reputation]
    exact max_le (by norm_num) (min_le_left _ _)
  · rw [updateMetrics_reputation]
    norm_num [max_def, min_def]

/-- C9 (implicit): on a tick whose aggregate has `processed + dropped = 0`
the availability metric keeps its previous value, and on a tick with
`processed = 0` the average-latency metric keeps its previous value: both
fields are recomputed only when their denominators are positive, so they
can go stale. -/
theorem metrics_stale_when_no_denominator (m : Metrics) (t : TickResults)
    (serviceCosts : List ℚ) :
    (t.processed + t.dropped = 0 →
      (GameState.updateMetrics m t serviceCosts).availability = m.availability) ∧
    (t.processed = 0 →
      (GameState.updateMetrics m t serviceCosts).averageLatency = m.averageLatency) := by
  exact ⟨fun h => updateMetrics_availability_of_none m t serviceCosts h,
         fun h => updateMetrics_averageLatency_of_none m t serviceCosts h⟩

/-- Witness for `metrics_stale_when_no_denominator` at the empty tick
aggregate and the initial metrics. -/
theorem metrics_stale_witness :
    (GameState.updateMetrics {}
      { processed := 0, dropped := 0, blocked := 0, totalLatency := 0 } []).availability = 100 ∧
    (GameState.updateMetrics {}
      { processed := 0, dropped := 0, blocked := 0, totalLatency := 0 } []).averageLatency = 0 := by
  have h := metrics_stale_when_no_denominator {}
    { processed := 0, dropped := 0, blocked := 0, totalLatency := 0 } []
  exact ⟨h.1 rfl, h.2 rfl⟩

/-- C5 (code bug): with zero deployed services and a non-empty batch, the
registry routes the requests nowhere and counts nothing — the comment at
`serviceRegistry.js` line 116 says "all requests are dropped", but the
aggregate reports `dropped = 0` (not 1) and the availability metric keeps
its previous value 100 instead of becoming 0. -/
theorem zero_services_requests_vanish :
    (ServiceRegistry.processRequests [] [{}] {} []
      { stream := fun _ => 1, idx := 0 }).1 =
      { processed := 0, dropped := 0, blocked := 0, totalLatency := 0 } ∧
    (ServiceRegistry.processRequests [] [{}] {} []
      { stream := fun _ => 1, idx := 0 }).2.1.availability = 100 := by
  have havail := updateMetrics_availability_of_none ({} : Metrics)
    { processed := 0, dropped := 0, blocked := 0, totalLatency := 0 } [] rfl
  constructor
  · simp [ServiceRegistry.processRequests, ServiceRegistry.routeRequests]
  · simp [ServiceRegistry.processRequests, ServiceRegistry.routeRequests, havail]


/-- C1 (code bug): a registry holding one AWS WAF (default action `BLOCK`,
no rule groups) offered one request: the WAF itself returns the request in
its `blocked` list, but `ServiceRegistry.processRequests` never adds
`result.blocked` to its `totalBlocked` accumulator, so the reported
aggregate is `processed + dropped + blocked = 0` for an offered batch of
length 1 — the blocked request vanishes from the tick accounting instead
of satisfying `processed + dropped + blocked = totalOffered`. -/
theorem registry_loses_blocked_requests :
    ((AWSWAF.mk' .BLOCK []).processRequests (fun _ _ => false) [{}]
      { stream := fun _ => 1, idx := 0 }).2.1.blocked.length = 1 ∧
    (ServiceRegistry.processRequests
      [fun reqs r =>
        let out := (AWSWAF.mk' .BLOCK []).processRequests (fun _ _ => false) reqs r
        (out.2.1, out.2.2)]
      [{}] {} [] { stream := fun _ => 1, idx := 0 }).1.processed +
    (ServiceRegistry.processRequests
      [fun reqs r =>
        let out := (AWSWAF.mk' .BLOCK []).processRequests (fun _ _ => false) reqs r
        (out.2.1, out.2.2)]
      [{}] {} [] { stream := fun _ => 1, idx := 0 }).1.dropped +
    (ServiceRegistry.processRequests
      [fun reqs r =>
        let out := (AWSWAF.mk' .BLOCK []).processRequests (fun _ _ => false) reqs r
        (out.2.1, out.2.2)]
      [{}] {} [] { stream := fun _ => 1, idx := 0 }).1.blocked = 0 ∧
    ([({} : Request)]).length = 1 := by
  have hb : ((AWSWAF.mk' .BLOCK []).processRequests (fun _ _ => false) [{}]
      { stream := fun _ => 1, idx := 0 }).2.1.blocked.length = 1 := by
    simp [AWSWAF.processRequests, AWSWAF.processEach, AWSWAF.mk',
      AWSWAF.initializeManagedRules, AWSWAF.getSortedRules, AWSWAF.inspectRequest,
      AWSWAF.inspectRules, BaseService.updateHealth, BaseService.shouldDropRequest,
      List.insertionSort, healthy_ne_failed]
    norm_num
    simp
  have hp : ((AWSWAF.mk' .BLOCK []).processRequests (fun _ _ => false) [{}]
      { stream := fun _ => 1, idx := 0 }).2.1.processed = [] := by
    simp [AWSWAF.processRequests, AWSWAF.processEach, AWSWAF.mk',
      AWSWAF.initializeManagedRules, AWSWAF.getSortedRules, AWSWAF.inspectRequest,
      AWSWAF.inspectRules, BaseService.updateHealth, BaseService.shouldDropRequest,
      List.insertionSort, healthy_ne_failed]
    norm_num
    simp
  have hd : ((AWSWAF.mk' .BLOCK []).processRequests (fun _ _ => false) [{}]
      { stream := fun _ => 1, idx := 0 }).2.1.dropped = [] := by
    simp [AWSWAF.processRequests, AWSWAF.processEach, AWSWAF.mk',
      AWSWAF.initializeManagedRules, AWSWAF.getSortedRules, AWSWAF.inspectRequest,
      AWSWAF.inspectRules, BaseService.updateHealth, BaseService.shouldDropRequest,
      List.insertionSort, healthy_ne_failed]
    norm_num
    simp
  have hroute : ServiceRegistry.routeRequests 1 [({} : Request)] = [(0, [{}])] := by
    decide
  refine ⟨hb, ?_, rfl⟩
  simp [ServiceRegistry.processRequests, hroute, hp, hd]


/-! ## Evaluation lemmas for the default AWS compute instance -/

theorem strStartsWith_t :
    strStartsWith (AWSCompute.parseInstanceFamily "t3.medium") "t" = true := by decide

/-- The default-configuration constructor result, as an explicit record. -/
theorem default'_eq (c : ℚ) : AWSCompute.default' c =
    { id := "", name := "AWS-EC2", provider := "aws", capacity := c, baseCost := 1 / 20,
      instanceType := "t3.medium", tenancy := "default", isBurstable := true,
      cpuCredits := { current := 30, maximum := 144, earnRate := 1 / 5, baseline := 20 },
      autoScaling := { enabled := false, minInstances := 1, maxInstances := 10,
                       desiredCapacity := 1, scaleUpThreshold := 70,
                       scaleDownThreshold := 30, cooldownPeriod := 300 },
      volumeSize := 20, spotInstance := false, interruptionRisk := 0,
      reservedInstance := false, enhancedNetworking := true,
      placementGroupName := none, placementStrategy := "cluster",
      latencyBase := 5, latencyMultiplier := 6 / 5, degradationThreshold := 7 / 10,
      failureThreshold := 13 / 10, instanceState := "running", currentLoad := 0,
      currentCpuUtilization := 0, lastScalingAction := 0, health := .healthy } := by
  simp [AWSCompute.default', AWSCompute.mk', strStartsWith_t]

/-- When a compute instance is not failed and the load is at or below its
failure threshold, the per-request loop drops nothing, for every random
stream. -/
theorem processEach_dropped_nil_of_le (s : AWSCompute) (load : ℚ)
    (hh : s.health ≠ .failed) (hl : ¬ s.failureThreshold < load) :
    ∀ (reqs : List Request) (r : Rand),
      (AWSCompute.processEach s load reqs r).2.1 = [] := by
  intro reqs
  induction reqs with
  | nil => intro r; rfl
  | cons a tl ih =>
    intro r
    have hd : BaseService.shouldDropRequest s.health s.failureThreshold load
        (r.stream r.idx) = (false, 0) := by
      unfold BaseService.shouldDropRequest
      rw [if_neg hh, if_neg hl]
    simp only [AWSCompute.processEach, hd]
    simp [ih]

theorem filter_range_succ_length (P : ℕ → Bool) (n : ℕ) :
    ((List.range (n + 1)).filter P).length =
      (if P 0 = true then 1 else 0) + ((List.range n).filter (P ∘ Nat.succ)).length := by
  rw [List.range_succ_eq_map, List.filter_cons]
  split_ifs with h
  · simp only [List.filter_map, List.length_map, List.length_cons]
    omega
  · simp [List.filter_map]

/-- When a compute instance is over its failure threshold but not failed,
the per-request loop consumes exactly one random draw per request and
drops request `j` exactly when that draw is below
`(load − failureThreshold) / failureThreshold`. -/
theorem processEach_dropped_length (s : AWSCompute) (load : ℚ)
    (hh : s.health ≠ .failed) (hl : s.failureThreshold < load) (f : ℕ → ℚ) :
    ∀ (reqs : List Request) (i : ℕ),
      ((AWSCompute.processEach s load reqs { stream := f, idx := i }).2.1).length =
        ((List.range reqs.length).filter
          (fun j => decide (f (i + j) <
            (load - s.failureThreshold) / s.failureThreshold))).length := by
  intro reqs
  induction reqs with
  | nil => intro i; simp [AWSCompute.processEach]
  | cons a tl ih =>
    intro i
    have hd : BaseService.shouldDropRequest s.health s.failureThreshold load (f i) =
        (decide (f i < (load - s.failureThreshold) / s.failureThreshold), 1) := by
      unfold BaseService.shouldDropRequest
      rw [if_neg hh, if_pos hl]
    have key : (AWSCompute.processEach s load (a :: tl) { stream := f, idx := i }).2.1.length =
        (if f i < (load - s.failureThreshold) / s.failureThreshold then
          (AWSCompute.processEach s load tl { stream := f, idx := i + 1 }).2.1.length + 1
        else
          (AWSCompute.processEach s load tl { stream := f, idx := i + 1 }).2.1.length) := by
      simp only [AWSCompute.processEach, hd, decide_eq_true_eq]
      split_ifs with hfi <;> simp
    have hcomp : ((fun j => decide (f (i + j) <
          (load - s.failureThreshold) / s.failureThreshold)) ∘ Nat.succ) =
        fun j => decide (f ((i + 1) + j) <
          (load - s.failureThreshold) / s.failureThreshold) := by
      funext j
      have harg : i + Nat.succ j = (i + 1) + j := by omega
      simp [Function.comp, harg]
    rw [key, List.length_cons, filter_range_succ_length, hcomp, ← ih (i + 1)]
    simp only [Nat.add_zero, decide_eq_true_eq]
    split_ifs with h1 <;> omega

/-- C2 (counterexample): with the all-default configuration at capacity 500
— `t3.medium` is burstable — offering 500 requests in one tick drives the
CPU credits to zero and leaves health `degraded`, not `healthy` as the
claim states. -/
theorem compute_scenario_counterexample :
    ((AWSCompute.default' 500).processRequests (List.replicate 500 {})
      { stream := fun _ => 1, idx := 0 } 0).1.health = Health.degraded ∧
    Health.degraded ≠ Health.healthy := by
  have hisE : (List.replicate 500 ({} : Request)).isEmpty = false := by decide
  refine ⟨?_, by decide⟩
  rw [default'_eq]
  simp only [AWSCompute.processRequests, hisE]
  norm_num [AWSCompute.updateCpuCredits, AWSCompute.updateHealth,
    AWSCompute.evaluateAutoScaling, BaseService.updateHealth, max_def, min_def]

set_option maxRecDepth 8000 in
/-- C2 (amended): for the default instance at capacity 500 and every
random stream, offering 500 requests leaves health `degraded` (the
burstable CPU-credit override) and drops nothing; offering 700 requests
(load 1.4) also leaves health `degraded` — the credit override downgrades
the `failed` threshold classification — and drops each request
independently exactly when its draw is below `(1.4 − 1.3)/1.3 = 1/13`,
rather than dropping all 700. -/
theorem compute_scenario_amended (f : ℕ → ℚ) :
    ((AWSCompute.default' 500).processRequests (List.replicate 500 {})
      { stream := f, idx := 0 } 0).1.health = .degraded ∧
    ((AWSCompute.default' 500).processRequests (List.replicate 500 {})
      { stream := f, idx := 0 } 0).2.1.dropped = [] ∧
    ((AWSCompute.default' 500).processRequests (List.replicate 700 {})
      { stream := f, idx := 0 } 0).1.health = .degraded ∧
    ((AWSCompute.default' 500).processRequests (List.replicate 700 {})
      { stream := f, idx := 0 } 0).2.1.dropped.length =
      ((List.range 700).filter (fun j => decide (f j < 1 / 13))).length := by
  have hisE500 : (List.replicate 500 ({} : Request)).isEmpty = false := by decide
  have hisE700 : (List.replicate 700 ({} : Request)).isEmpty = false := by decide
  refine ⟨?_, ?_, ?_, ?_⟩
  · rw [default'_eq]
    simp only [AWSCompute.processRequests, hisE500]
    norm_num [AWSCompute.updateCpuCredits, AWSCompute.updateHealth,
      AWSCompute.evaluateAutoScaling, BaseService.updateHealth, max_def, min_def]
  · rw [default'_eq]
    simp only [AWSCompute.processRequests, hisE500]
    norm_num [AWSCompute.updateCpuCredits, AWSCompute.updateHealth,
      AWSCompute.evaluateAutoScaling, BaseService.updateHealth, max_def, min_def]
    exact processEach_dropped_nil_of_le _ _ (by decide) (by norm_num) _ _
  · rw [default'_eq]
    simp only [AWSCompute.processRequests, hisE700]
    norm_num [AWSCompute.updateCpuCredits, AWSCompute.updateHealth,
      AWSCompute.evaluateAutoScaling, BaseService.updateHealth, max_def, min_def]
  · rw [default'_eq]
    simp only [AWSCompute.processRequests, hisE700]
    norm_num [AWSCompute.updateCpuCredits, AWSCompute.updateHealth,
      AWSCompute.evaluateAutoScaling, BaseService.updateHealth, max_def, min_def]
    rw [processEach_dropped_length _ _ (by decide) (by norm_num) f _ 0]
    have hlen : (List.replicate 700 ({} : Request)).length = 700 := by simp
    rw [hlen]
    congr 1
    apply List.filter_congr
    intro j _
    have hb : ((7 : ℚ) / 5 - 13 / 10) / (13 / 10) = 1 / 13 := by norm_num
    simp [hb]

/-! ## Load and health lemmas -/

theorem inspectRules_no_terminator (isM : WafRule → Bool) (dflt : WafAction) :
    ∀ (L : List WafRule),
      (∀ rule ∈ L, isM rule = true → AWSWAF.isTerminatingAction rule.action = false) →
      (AWSWAF.inspectRules isM dflt L).action = dflt ∧
      (AWSWAF.inspectRules isM dflt L).terminatingRule = none := by
  intro L
  induction L with
  | nil => intro _; exact ⟨rfl, rfl⟩
  | cons r rest ih =>
    intro h
    have ihr := ih (fun rule hr hmr => h rule (List.mem_cons_of_mem r hr) hmr)
    by_cases hm : isM r = true
    · have ht := h r (List.mem_cons_self r rest) hm
      simp only [AWSWAF.inspectRules, hm, ht]
      simp [ihr.1, ihr.2]
    · simp only [AWSWAF.inspectRules, hm]
      simpa using ihr

theorem inspectRules_first_terminator (isM : WafRule → Bool) (dflt : WafAction) :
    ∀ (L1 : List WafRule) (t : WafRule) (L2 : List WafRule),
      isM t = true → AWSWAF.isTerminatingAction t.action = true →
      (∀ rule ∈ L1, isM rule = true → AWSWAF.isTerminatingAction rule.action = false) →
      AWSWAF.inspectRules isM dflt (L1 ++ t :: L2) =
        { action := t.action
          matchedRules := (L1.filter isM).map
            (fun rule => { ruleId := rule.id, ruleName := rule.name, action := rule.action }) ++
            [{ ruleId := t.id, ruleName := t.name, action := t.action }]
          terminatingRule := some t.id } := by
  intro L1
  induction L1 with
  | nil =>
    intro t L2 hm ht _
    simp [AWSWAF.inspectRules, hm, ht]
  | cons a rest ih =>
    intro t L2 hm ht h
    have hrec := ih t L2 hm ht (fun rule hr hmr => h rule (List.mem_cons_of_mem a hr) hmr)
    by_cases ha : isM a = true
    · have hta := h a (List.mem_cons_self a rest) ha
      simp only [List.cons_append, AWSWAF.inspectRules, ha, hta, List.filter_cons]
      simp [ha, hrec]
    · simp only [List.cons_append, AWSWAF.inspectRules, ha, List.filter_cons]
      simp [ha, hrec]

/-- C4: the WAF evaluates its rule list in ascending priority order (the
sorted list is a permutation of the configured rules, pairwise ordered by
priority); if no matching rule has a terminating action — in particular
when only `COUNT` rules match — the final disposition is the configured
default action with no terminating rule; and when the sorted list splits
as `L1 ++ t :: L2` with `t` the first matching terminating rule,
evaluation stops at `t`: the disposition is `t.action` and `matchedRules`
lists exactly the matches in `L1` followed by `t`, never anything
evaluated after the terminator. -/
theorem waf_rule_evaluation (s : AWSWAF) (isM : WafRule → Bool) :
    List.Pairwise (fun a b => a.priority ≤ b.priority) s.getSortedRules ∧
    List.Perm s.getSortedRules (s.managedRuleGroups ++ s.customRules ++ s.rateBasedRules) ∧
    ((∀ rule ∈ s.getSortedRules, isM rule = true →
        AWSWAF.isTerminatingAction rule.action = false) →
      (s.inspectRequest isM).action = s.defaultAction ∧
      (s.inspectRequest isM).terminatingRule = none) ∧
    (∀ (L1 : List WafRule) (t : WafRule) (L2 : List WafRule),
      s.getSortedRules = L1 ++ t :: L2 →
      isM t = true → AWSWAF.isTerminatingAction t.action = true →
      (∀ rule ∈ L1, isM rule = true → AWSWAF.isTerminatingAction rule.action = false) →
      s.inspectRequest isM =
        { action := t.action
          matchedRules := (L1.filter isM).map
            (fun rule => { ruleId := rule.id, ruleName := rule.name, action := rule.action }) ++
            [{ ruleId := t.id, ruleName := t.name, action := t.action }]
          terminatingRule := some t.id }) := by
  refine ⟨List.sorted_insertionSort _ _, List.perm_insertionSort _ _, ?_, ?_⟩
  · intro h
    exact inspectRules_no_terminator isM s.defaultAction s.getSortedRules h
  · intro L1 t L2 heq hm ht h
    unfold AWSWAF.inspectRequest
    rw [heq]
    exact inspectRules_first_terminator isM s.defaultAction L1 t L2 hm ht h

/-- Witness for `waf_rule_evaluation`: a four-rule list in which a `COUNT`
rule matches first, a `BLOCK` rule does not match, the next `BLOCK` rule
matches and terminates, and a later `ALLOW` rule is never evaluated. -/
theorem waf_rule_evaluation_witness :
    AWSWAF.inspectRequest
      { defaultAction := .ALLOW,
        managedRuleGroups := [⟨"c1", "count-rule", "CUSTOM", 1, .COUNT⟩,
                              ⟨"b1", "skip", "CUSTOM", 2, .BLOCK⟩],
        customRules := [⟨"t1", "block-rule", "CUSTOM", 3, .BLOCK⟩,
                        ⟨"z1", "late", "CUSTOM", 4, .ALLOW⟩] }
      (fun rule => rule.name != "skip") =
      { action := .BLOCK
        matchedRules := [⟨"c1", "count-rule", .COUNT⟩, ⟨"t1", "block-rule", .BLOCK⟩]
        terminatingRule := some "t1" } := by
  have h := (waf_rule_evaluation
      { defaultAction := .ALLOW,
        managedRuleGroups := [⟨"c1", "count-rule", "CUSTOM", 1, .COUNT⟩,
                              ⟨"b1", "skip", "CUSTOM", 2, .BLOCK⟩],
        customRules := [⟨"t1", "block-rule", "CUSTOM", 3, .BLOCK⟩,
                        ⟨"z1", "late", "CUSTOM", 4, .ALLOW⟩] }
      (fun rule => rule.name != "skip")).2.2.2
      [⟨"c1", "count-rule", "CUSTOM", 1, .COUNT⟩, ⟨"b1", "skip", "CUSTOM", 2, .BLOCK⟩]
      ⟨"t1", "block-rule", "CUSTOM", 3, .BLOCK⟩
      [⟨"z1", "late", "CUSTOM", 4, .ALLOW⟩]
      (by decide) (by decide) (by decide) (by decide)
  rw [h]
  decide

/-- C7: once the game-over flag is set, a further `executeTick` call
leaves the metrics snapshot, the deployed services and the tick counter
unchanged (and the flag stays set), whatever the generator and registry
handlers would do. -/
theorem gameover_tick_is_noop (generate : ℕ → GameLoopState → GameLoopState)
    (process : GameLoopState → GameLoopState) (tickNumber : ℕ) (s : GameLoopState)
    (h : s.metrics.gameOver = true) :
    (GameLoop.executeTick generate process tickNumber s).metrics = s.metrics ∧
    (GameLoop.executeTick generate process tickNumber s).services = s.services ∧
    (GameLoop.executeTick generate process tickNumber s).tick = s.tick ∧
    (GameLoop.executeTick generate process tickNumber s).metrics.gameOver = true := by
  unfold GameLoop.executeTick
  rw [if_pos h]
  exact ⟨rfl, rfl, rfl, h⟩

/-- Witness for `gameover_tick_is_noop` at a concrete game-over state. -/
theorem gameover_tick_is_noop_witness :
    (GameLoop.executeTick (fun _ s => s) (fun s => s) 7
      { metrics := { gameOver := true } }).metrics =
      ({ metrics := { gameOver := true } } : GameLoopState).metrics ∧
    (GameLoop.executeTick (fun _ s => s) (fun s => s) 7
      { metrics := { gameOver := true } }).tick = 0 := by
  have h := gameover_tick_is_noop (fun _ s => s) (fun s => s) 7
    { metrics := { gameOver := true } } rfl
  exact ⟨h.1, h.2.2.1⟩

/-- C8: deployment validation reports every violated rule — capacity ≤ 0,
unknown provider, negative base cost and the contradictory spot+reserved
flags each contribute their message to the returned list — and a deploy
with any violation returns `false` leaving both the registry contents and
the game-state provider buckets unchanged. -/
theorem deploy_rejects_invalid_and_reports_all (svc : AWSCompute)
    (registry : List AWSCompute) (buckets : Providers) :
    (svc.capacity ≤ 0 → "Capacity must be greater than 0" ∈ svc.validate) ∧
    ((["aws", "gcp", "azure"].contains svc.provider) = false →
      "Invalid provider - must be aws, gcp, or azure" ∈ svc.validate) ∧
    (svc.baseCost < 0 → "Base cost cannot be negative" ∈ svc.validate) ∧
    (svc.spotInstance = true ∧ svc.reservedInstance = true →
      "Instance cannot be both spot and reserved" ∈ svc.validate) ∧
    (svc.validate ≠ [] →
      ServiceRegistry.deployService svc registry buckets = (false, registry, buckets)) := by
  refine ⟨?_, ?_, ?_, ?_, ?_⟩
  · intro h
    simp [AWSCompute.validate, BaseService.validate, h]
  · intro h
    have h' : ¬ svc.provider = "aws" ∧ ¬ svc.provider = "gcp" ∧ ¬ svc.provider = "azure" := by
      simpa using h
    simp [AWSCompute.validate, BaseService.validate, h]
    tauto
  · intro h
    simp [AWSCompute.validate, BaseService.validate, h]
  · intro h
    simp [AWSCompute.validate, BaseService.validate, h]
  · intro h
    have hlen : 0 < svc.validate.length := List.length_pos.mpr h
    simp [ServiceRegistry.deployService, hlen]

/-- Witness for `deploy_rejects_invalid_and_reports_all`: a configuration
violating all four rules at once is reported in full and rejected without
touching registry or buckets. -/
theorem deploy_rejects_invalid_witness :
    ("Capacity must be greater than 0" ∈
      ({ AWSCompute.mk' (-1) true true with provider := "foo", baseCost := -2 }).validate) ∧
    ("Invalid provider - must be aws, gcp, or azure" ∈
      ({ AWSCompute.mk' (-1) true true with provider := "foo", baseCost := -2 }).validate) ∧
    ("Base cost cannot be negative" ∈
      ({ AWSCompute.mk' (-1) true true with provider := "foo", baseCost := -2 }).validate) ∧
    ("Instance cannot be both spot and reserved" ∈
      ({ AWSCompute.mk' (-1) true true with provider := "foo", baseCost := -2 }).validate) ∧
    ServiceRegistry.deployService
      { AWSCompute.mk' (-1) true true with provider := "foo", baseCost := -2 } [] {} =
      (false, [], {}) := by
  have h := deploy_rejects_invalid_and_reports_all
    { AWSCompute.mk' (-1) true true with provider := "foo", baseCost := -2 } [] {}
  exact ⟨h.1 (by norm_num [AWSCompute.mk']), h.2.1 (by decide),
    h.2.2.1 (by norm_num [AWSCompute.mk']), h.2.2.2.1 ⟨rfl, rfl⟩,
    h.2.2.2.2 (List.ne_nil_of_mem (h.2.2.2.1 ⟨rfl, rfl⟩))⟩

end CloudFall
